import Mathlib

/-!
# memgraph-mcp-server: the two tool handlers and the start-up configuration

A shallow embedding of `main.go`.

* Go strings are Lean strings, Go `error` values are the text of their
  `Error()` method, and a Go `map[string]interface{}` is an association list
  read with first-match lookup and written with `mapAssign`.
* The database driver is a value `DriverWithContext`: running a query text
  either fails or hands over a result stream, which is the finite list of
  records that `Next` delivers, the error `Err` reports once the stream has
  ended, and the column names of the result.
* A handler returns its `CallToolResult`, its process-level error and the
  calls it made on the driver, in order.
-/

namespace MemgraphMCP

/-! ## Dynamic values -/

mutual
/-- The dynamic values that travel through `interface{}`: JSON-decoded tool
arguments and the values of a database record. `other` is any value the
handlers do not inspect (a float, a date, a point, ...); it carries the text
that `%v` prints for it. -/
inductive Value where
  | null
  | bool (b : Bool)
  | int (i : Int)
  | str (s : String)
  | strs (l : List String)
  | list (l : List Value)
  | map (m : List (String × Value))
  | node (n : Node)
  | relationship (r : Relationship)
  | path (p : Path)
  | other (shown : String)
/-- The driver's `neo4j.Node`. -/
inductive Node where
  | mk (Id : Int) (ElementId : String) (Labels : List String) (Props : List (String × Value))
/-- The driver's `neo4j.Relationship`. -/
inductive Relationship where
  | mk (Id : Int) (ElementId : String) (StartId : Int) (StartElementId : String)
      (EndId : Int) (EndElementId : String) (Type_ : String) (Props : List (String × Value))
/-- The driver's `neo4j.Path`. -/
inductive Path where
  | mk (Nodes : List Node) (Relationships : List Relationship)
end

/-- A Go `map[string]interface{}`. -/
abbrev GoMap := List (String × Value)

def Node.ElementId : Node → String
  | .mk _ e _ _ => e

def Node.Labels : Node → List String
  | .mk _ _ l _ => l

def Node.Props : Node → GoMap
  | .mk _ _ _ p => p

def Relationship.ElementId : Relationship → String
  | .mk _ e _ _ _ _ _ _ => e

def Relationship.StartElementId : Relationship → String
  | .mk _ _ _ s _ _ _ _ => s

def Relationship.EndElementId : Relationship → String
  | .mk _ _ _ _ _ e _ _ => e

def Relationship.Type_ : Relationship → String
  | .mk _ _ _ _ _ _ t _ => t

def Relationship.Props : Relationship → GoMap
  | .mk _ _ _ _ _ _ _ p => p

def Path.Nodes : Path → List Node
  | .mk ns _ => ns

def Path.Relationships : Path → List Relationship
  | .mk _ rs => rs

/-! ## Go maps -/

/-- The comma-ok read `v, ok := m[k]`. -/
def mapLookup : GoMap → String → Option Value
  | [], _ => none
  | (k, v) :: m, key => if k = key then some v else mapLookup m key

/-- The plain read `m[k]`: the nil interface when the key is absent. -/
def mapIndex (m : GoMap) (key : String) : Value :=
  match mapLookup m key with
  | some v => v
  | none => .null

/-- The write `m[k] = v`: an existing entry is replaced, a new one is added. -/
def mapAssign : GoMap → String → Value → GoMap
  | [], key, v => [(key, v)]
  | (k, w) :: m, key, v => if k = key then (k, v) :: m else (k, w) :: mapAssign m key v

/-! ## `fmt.Sprintf("%v", ...)` -/

/-- Insertion of one rendered map entry in key order. -/
def insertEntry (e : String × String) : List (String × String) → List (String × String)
  | [] => [e]
  | x :: xs => if e.1.data < x.1.data then e :: x :: xs else x :: insertEntry e xs

/-- Rendered map entries in key order, the order in which `fmt` prints a map. -/
def sortEntries (es : List (String × String)) : List (String × String) :=
  es.foldr insertEntry []

/-- The text `map[k1:v1 k2:v2]` of rendered entries. -/
def fmtMap (es : List (String × String)) : String :=
  "map[" ++ " ".intercalate ((sortEntries es).map (fun e => e.1 ++ ":" ++ e.2)) ++ "]"

/-- The text `[a b c]` of rendered elements. -/
def fmtSlice (xs : List String) : String :=
  "[" ++ " ".intercalate xs ++ "]"

mutual
/-- The verb `%v` on a dynamic value. -/
def fmtValue : Value → String
  | .null => "<nil>"
  | .bool b => if b then "true" else "false"
  | .int i => toString i
  | .str s => s
  | .strs l => fmtSlice l
  | .list l => fmtSlice (fmtValues l)
  | .map m => fmtMap (fmtEntries m)
  | .node n => fmtNode n
  | .relationship r => fmtRelationship r
  | .path p => fmtPath p
  | .other shown => shown
def fmtValues : List Value → List String
  | [] => []
  | v :: vs => fmtValue v :: fmtValues vs
def fmtEntries : List (String × Value) → List (String × String)
  | [] => []
  | (k, v) :: es => (k, fmtValue v) :: fmtEntries es
def fmtNode : Node → String
  | .mk i e l p =>
    "\x7b" ++ toString i ++ " " ++ e ++ " " ++ fmtSlice l ++ " " ++ fmtMap (fmtEntries p) ++ "\x7d"
def fmtRelationship : Relationship → String
  | .mk i e si se ei ee t p =>
    "\x7b" ++ toString i ++ " " ++ e ++ " " ++ toString si ++ " " ++ se ++ " " ++ toString ei ++ " "
      ++ ee ++ " " ++ t ++ " " ++ fmtMap (fmtEntries p) ++ "\x7d"
def fmtPath : Path → String
  | .mk ns rs => "\x7b" ++ fmtSlice (fmtNodes ns) ++ " " ++ fmtSlice (fmtRelationships rs) ++ "\x7d"
def fmtNodes : List Node → List String
  | [] => []
  | n :: ns => fmtNode n :: fmtNodes ns
def fmtRelationships : List Relationship → List String
  | [] => []
  | r :: rs => fmtRelationship r :: fmtRelationships rs
end

/-! ## `strings.ToLower` and `strings.Contains` -/

/-- Go's `unicode.ToLower` as far as the handlers can observe it: `A`-`Z` go
to `a`-`z`, and the two runes outside ASCII whose lower case is an ASCII
letter, U+0130 and U+212A, go to `i` and `k`. Every other rune outside ASCII
has a lower case outside ASCII; the lowered text is only searched for ASCII
words, so these runes are kept in place. -/
def unicodeToLower (c : Char) : Char :=
  if c = Char.ofNat 0x130 then 'i'
  else if c = Char.ofNat 0x212A then 'k'
  else c.toLower

/-- Go's `strings.ToLower`: every rune is mapped by `unicode.ToLower`. -/
def ToLower (s : String) : String :=
  ⟨s.data.map unicodeToLower⟩

/-- Whether the text `p` starts the text `s`. -/
def hasPrefix : List Char → List Char → Bool
  | _, [] => true
  | [], _ :: _ => false
  | c :: cs, p :: ps => c == p && hasPrefix cs ps

/-- Whether `substr` occurs in `s` at some position. -/
def containsChars : List Char → List Char → Bool
  | [], substr => hasPrefix [] substr
  | c :: cs, substr => hasPrefix (c :: cs) substr || containsChars cs substr

/-- Go's `strings.Contains`. -/
def Contains (s substr : String) : Bool :=
  containsChars s.data substr.data

/-! ## The tool protocol -/

structure TextContent where
  Type_ : String
  Text : String
  deriving DecidableEq, Repr

structure CallToolResult where
  Content : List TextContent
  IsError : Bool
  deriving DecidableEq, Repr

def NewToolResultText (text : String) : CallToolResult :=
  { Content := [{ Type_ := "text", Text := text }], IsError := false }

def NewToolResultError (text : String) : CallToolResult :=
  { Content := [{ Type_ := "text", Text := text }], IsError := true }

/-- The part of `mcp.CallToolRequest` the handlers read: `Params.Arguments`. -/
structure CallToolRequest where
  Arguments : GoMap

/-! ## The database driver -/

/-- A record as the handlers read it: its column names and its values by
column name. -/
structure Record where
  Keys : List String
  Values : GoMap

/-- The stream a successful `Run` returns: `records` are what the calls of
`Next` deliver before the first call that fails, `err` is what `Err` reports
afterwards, `keys` are the column names of the result. -/
structure ResultWithContext where
  keys : List String
  records : List Record
  err : Option String

/-- The connection handle: what running a query text with a parameter map
gives at the current state of the database. -/
structure DriverWithContext where
  Run : String → GoMap → Except String ResultWithContext

/-- The calls a handler makes on the driver. -/
inductive Call where
  | NewSession
  | Run (query : String) (params : GoMap)
  | Close

/-- What a handler hands back: the tool result, the process-level error and the
driver calls it made, in order. -/
structure Response where
  result : CallToolResult
  err : Option String
  calls : List Call

/-! ## `handleQuery` -/

/-- The type switch on a record value: nodes, relationships and paths are
reshaped into generic maps, every other value is kept. -/
def convertValue (value : Value) : Value :=
  match value with
  | .node v =>
    .map [("id", .str v.ElementId), ("labels", .strs v.Labels), ("properties", .map v.Props)]
  | .relationship v =>
    .map [("id", .str v.ElementId), ("type", .str v.Type_), ("start", .str v.StartElementId),
      ("end", .str v.EndElementId), ("properties", .map v.Props)]
  | .path v =>
    .map [("nodes", .int v.Nodes.length), ("relationships", .int v.Relationships.length)]
  | v => v

/-- The inner loop `for _, key := range keys` that fills one row. -/
def convertRecord (keys : List String) (record : Record) : GoMap :=
  keys.foldl (fun row key => mapAssign row key (convertValue (mapIndex record.Values key))) []

/-- The loop over `result.Next`: it stops at the first call that fails, which
is the end of `records`. The column names are taken from a record whenever
none have been captured yet. -/
def collectRecords : List Record → List String → List GoMap → List String × List GoMap
  | [], keys, rows => (keys, rows)
  | record :: rest, keys, rows =>
    let keys := if keys.length = 0 then record.Keys else keys
    collectRecords rest keys (rows ++ [convertRecord keys record])

/-- The handler of the tool `run_query`. -/
def handleQuery (Driver : DriverWithContext) (request : CallToolRequest) : Response :=
  match mapLookup request.Arguments "query" with
  | some (.str query) =>
    let unsafeOn : Bool :=
      match mapLookup request.Arguments "unsafe" with
      | some (.bool val) => val
      | _ => false
    let lowerQuery := ToLower query
    if !unsafeOn &&
        (Contains lowerQuery "delete " ||
          Contains lowerQuery "remove " ||
          Contains lowerQuery "drop " ||
          Contains lowerQuery "create " ||
          Contains lowerQuery "merge " ||
          Contains lowerQuery "set ") then
      { result := NewToolResultError
          "Potentially unsafe query detected. Set 'unsafe' to true to execute.",
        err := none, calls := [] }
    else
      match Driver.Run query [] with
      | .error err =>
        { result := NewToolResultError ("Query execution failed: " ++ err),
          err := none, calls := [.NewSession, .Run query [], .Close] }
      | .ok result =>
        let collected := collectRecords result.records [] []
        let keys := collected.1
        let rows := collected.2
        match result.err with
        | some err =>
          { result := NewToolResultError ("Error processing results: " ++ err),
            err := none, calls := [.NewSession, .Run query [], .Close] }
        | none =>
          if rows.length = 0 then
            { result := NewToolResultText (fmtValue (.map
                [("message", .str "Query executed successfully with no records returned"),
                  ("columns", .strs keys)])),
              err := none, calls := [.NewSession, .Run query [], .Close] }
          else
            { result := NewToolResultText (fmtValue (.map
                [("columns", .strs keys), ("rows", .list (rows.map Value.map)),
                  ("count", .int rows.length)])),
              err := none, calls := [.NewSession, .Run query [], .Close] }
  | _ =>
    { result := NewToolResultError "Query parameter is required", err := none, calls := [] }

/-! ## `handleSchemaInfo` -/

/-- The loop `for key, value := range record.Values` that copies one record. -/
def schemaItem (record : Record) : GoMap :=
  record.Values.foldl (fun item kv => mapAssign item kv.1 kv.2) []

/-- The loop over `result.Next` of the schema handler. -/
def collectSchema : List Record → List GoMap → List GoMap
  | [], schema => schema
  | record :: rest, schema => collectSchema rest (schema ++ [schemaItem record])

/-- The handler of the tool `get_schema`. -/
def handleSchemaInfo (Driver : DriverWithContext) (_request : CallToolRequest) : Response :=
  match Driver.Run "SHOW SCHEMA INFO;" [] with
  | .error err =>
    { result := NewToolResultError ("Failed to get schema information: " ++ err),
      err := none, calls := [.NewSession, .Run "SHOW SCHEMA INFO;" [], .Close] }
  | .ok result =>
    let schema := collectSchema result.records []
    match result.err with
    | some err =>
      { result := NewToolResultError ("Error processing schema results: " ++ err),
        err := none, calls := [.NewSession, .Run "SHOW SCHEMA INFO;" [], .Close] }
    | none =>
      if schema.length = 0 then
        { result := NewToolResultText "No schema information available.",
          err := none, calls := [.NewSession, .Run "SHOW SCHEMA INFO;" [], .Close] }
      else
        { result := NewToolResultText (fmtValue (.map [("schema", .list (schema.map Value.map))])),
          err := none, calls := [.NewSession, .Run "SHOW SCHEMA INFO;" [], .Close] }

/-! ## `main` -/

/-- The launch configuration; a nil slice or map is `none`. -/
structure MCPConfig where
  Type_ : String
  Command : String
  Args : Option (List String)
  Env : Option (List (String × String))

/-- The command line after `flag.Parse`. -/
structure Flags where
  json : Bool
  version : Bool
  connectionUri : String
  username : String
  password : String

/-- The process environment: `os.Getenv`, the result of `os.Executable` and
`filepath.Base(os.Args[0])`. -/
structure Os where
  Getenv : String → String
  Executable : Except String String
  baseArg0 : String

def version : String := "dev"

def commit : String := "none"

def date : String := "unknown"

def getExecutablePath (os : Os) : String :=
  match os.Executable with
  | .error _ => os.baseArg0
  | .ok execPath => execPath

/-- Go's `append` on a slice that may be nil. -/
def append (s : Option (List String)) (xs : List String) : Option (List String) :=
  some (s.getD [] ++ xs)

/-- The text `json.Marshal` gives for a slice of strings; `quote` is the
string encoder of `encoding/json`. -/
def marshalStrings (quote : String → String) : Option (List String) → String
  | none => "null"
  | some xs => "[" ++ ",".intercalate (xs.map quote) ++ "]"

/-- The text `json.Marshal` gives for a map of strings, in key order. -/
def marshalStringMap (quote : String → String) : Option (List (String × String)) → String
  | none => "null"
  | some es =>
    "\x7b" ++ ",".intercalate ((sortEntries es).map (fun e => quote e.1 ++ ":" ++ quote e.2))
      ++ "\x7d"

/-- The text `json.Marshal` gives for the launch configuration. -/
def Marshal (quote : String → String) (config : MCPConfig) : String :=
  "\x7b\"type\":" ++ quote config.Type_ ++ ",\"command\":" ++ quote config.Command
    ++ ",\"args\":" ++ marshalStrings quote config.Args
    ++ ",\"env\":" ++ marshalStringMap quote config.Env ++ "\x7d"

/-- The configuration built in the `--json` branch. -/
def jsonConfig (flags : Flags) (os : Os) : MCPConfig :=
  let config : MCPConfig :=
    { Type_ := "stdio", Command := getExecutablePath os, Args := some [], Env := some [] }
  let config :=
    if flags.connectionUri ≠ "" then
      { config with Args := append config.Args ["--connection-uri", flags.connectionUri] }
    else config
  let config :=
    if flags.username ≠ "" then
      { config with Args := append config.Args ["--username", flags.username] }
    else config
  let config :=
    if flags.password ≠ "" then
      { config with Args := append config.Args ["--password", flags.password] }
    else config
  config

/-- The connection parameters of the server mode: defaults, overridden by the
environment, overridden by the flags. -/
def connectionParams (flags : Flags) (os : Os) : String × String × String :=
  let connectionUri := "bolt://localhost:7687"
  let username := ""
  let password := ""
  let connectionUri := if os.Getenv "MEMGRAPH_URI" ≠ "" then os.Getenv "MEMGRAPH_URI" else connectionUri
  let username := if os.Getenv "MEMGRAPH_USER" ≠ "" then os.Getenv "MEMGRAPH_USER" else username
  let password := if os.Getenv "MEMGRAPH_PASSWORD" ≠ "" then os.Getenv "MEMGRAPH_PASSWORD" else password
  let connectionUri := if flags.connectionUri ≠ "" then flags.connectionUri else connectionUri
  let username := if flags.username ≠ "" then flags.username else username
  let password := if flags.password ≠ "" then flags.password else password
  (connectionUri, username, password)

/-- The driver's authentication tokens. -/
inductive AuthToken where
  | NoAuth
  | BasicAuth (username password realm : String)

/-- What `main` does up to the point where it opens the connection. -/
inductive MainAction where
  | printed (out : String)
  | connect (connectionUri : String) (auth : AuthToken)

/-- The entry point up to the creation of the driver; `quote` is the string
encoder of `encoding/json`. -/
def main (quote : String → String) (flags : Flags) (os : Os) : MainAction :=
  if flags.version then
    .printed ("Memgraph MCP Server\nVersion: " ++ version ++ "\nCommit: " ++ commit
      ++ "\nBuild date: " ++ date ++ "\n")
  else if flags.json then
    .printed (Marshal quote (jsonConfig flags os) ++ "\n")
  else
    let params := connectionParams flags os
    let auth :=
      if params.2.1 ≠ "" ∨ params.2.2 ≠ "" then AuthToken.BasicAuth params.2.1 params.2.2 ""
      else AuthToken.NoAuth
    .connect params.1 auth

/-! ## Definitions used to state the properties -/

/-- The six substrings the safety gate of `handleQuery` looks for. -/
def blockedWords : List String :=
  ["delete ", "remove ", "drop ", "create ", "merge ", "set "]

/-- The answer of the safety gate. -/
def unsafeRejection : CallToolResult :=
  NewToolResultError "Potentially unsafe query detected. Set 'unsafe' to true to execute."

/-- The query passes the safety gate: `unsafe` is the boolean true, or the
lowered text contains none of the blocked substrings. -/
def passesGate (request : CallToolRequest) (q : String) : Prop :=
  mapLookup request.Arguments "unsafe" = some (.bool true) ∨
    ∀ kw ∈ blockedWords, Contains (ToLower q) kw = false

/-- The driver calls of a handler that runs one query: a session is opened,
the text is run with an empty parameter map, the session is closed. -/
def runCalls (q : String) : List Call :=
  [.NewSession, .Run q [], .Close]

/-- The precedence of the specification: the flag value when it is not empty,
else the environment value when it is not empty, else the default. -/
def resolved (flagValue envValue dflt : String) : String :=
  if flagValue ≠ "" then flagValue else if envValue ≠ "" then envValue else dflt

/-- The launch arguments one connection flag contributes: the flag and its
value when the value is not empty, nothing otherwise. -/
def flagArgs (name value : String) : List String :=
  if value ≠ "" then [name, value] else []

/-- A node, a relationship between two nodes and the path they form. -/
def sampleNode : Node :=
  .mk 0 "4:db:0" ["Person"] [("name", .str "Ada")]

def sampleRelationship : Relationship :=
  .mk 5 "5:db:5" 0 "4:db:0" 1 "4:db:1" "KNOWS" [("since", .int 1843)]

def samplePath : Path :=
  .mk [sampleNode, .mk 1 "4:db:1" [] []] [sampleRelationship]

/-- Two records over the columns `n`, `r`, `p`, `x`. -/
def sampleRecords : List Record :=
  [{ Keys := ["n", "r", "p", "x"],
     Values := [("n", .node sampleNode), ("r", .relationship sampleRelationship),
       ("p", .path samplePath), ("x", .int 42)] },
   { Keys := ["n", "r", "p", "x"],
     Values := [("n", .null), ("r", .list [.node sampleNode]), ("p", .other "1.5"),
       ("x", .str "text")] }]

/-- The stream of a query with the one column `name` that matches nothing. -/
def zeroRowResult : ResultWithContext :=
  { keys := ["name"], records := [], err := none }

/-- A driver that answers every query with the given stream. -/
def driverReturning (result : ResultWithContext) : DriverWithContext :=
  { Run := fun _ _ => .ok result }

/-- A driver that fails every query with the given error. -/
def driverFailing (err : String) : DriverWithContext :=
  { Run := fun _ _ => .error err }

/-! ## The safety gate -/

theorem gate_eq_any (lowerQuery : String) :
    (Contains lowerQuery "delete " || Contains lowerQuery "remove " ||
      Contains lowerQuery "drop " || Contains lowerQuery "create " ||
      Contains lowerQuery "merge " || Contains lowerQuery "set ")
      = blockedWords.any (Contains lowerQuery) := by
  simp [blockedWords, List.any, Bool.or_assoc]

/-- C4: when `query` is absent or is not a string, `handleQuery` answers with
the tool-level error "Query parameter is required", a nil process-level error,
and makes no call on the driver, whatever the other arguments are. -/
theorem handleQuery_query_required (Driver : DriverWithContext) (request : CallToolRequest)
    (h : ∀ s, mapLookup request.Arguments "query" ≠ some (.str s)) :
    handleQuery Driver request =
      { result := NewToolResultError "Query parameter is required", err := none, calls := [] } := by
  unfold handleQuery
  split
  · next query hq => exact absurd hq (h query)
  · rfl

theorem handleQuery_query_required_witness :
    handleQuery (driverFailing "down")
        { Arguments := [("unsafe", .bool true), ("query", .int 7)] } =
      { result := NewToolResultError "Query parameter is required", err := none, calls := [] } ∧
    handleQuery (driverFailing "down") { Arguments := [("unsafe", .bool true)] } =
      { result := NewToolResultError "Query parameter is required", err := none, calls := [] } :=
  ⟨handleQuery_query_required _ _ (by intro s; simp [mapLookup]),
    handleQuery_query_required _ _ (by intro s; simp [mapLookup])⟩

/-- C1: when `unsafe` is absent, false or not a boolean and the lowered query
text contains one of the six blocked substrings, `handleQuery` answers with the
tool-level error of the gate, a nil process-level error, and makes no call on
the driver: no session is opened and no query is run. -/
theorem handleQuery_gate_rejects (Driver : DriverWithContext) (request : CallToolRequest)
    (q kw : String)
    (hq : mapLookup request.Arguments "query" = some (.str q))
    (hu : mapLookup request.Arguments "unsafe" ≠ some (.bool true))
    (hkw : kw ∈ blockedWords)
    (hc : Contains (ToLower q) kw = true) :
    handleQuery Driver request =
      { result := NewToolResultError
          "Potentially unsafe query detected. Set 'unsafe' to true to execute.",
        err := none, calls := [] } := by
  have hany : blockedWords.any (Contains (ToLower q)) = true :=
    List.any_eq_true.mpr ⟨kw, hkw, hc⟩
  have hflag : (match mapLookup request.Arguments "unsafe" with
      | some (.bool val) => val
      | _ => false) = false := by
    split
    · next val hv =>
      cases val
      · rfl
      · exact absurd hv hu
    · rfl
  unfold handleQuery
  simp only [hq, gate_eq_any, hany, hflag]
  rfl

theorem handleQuery_gate_rejects_witness :
    handleQuery (driverReturning { keys := [], records := [], err := none })
        { Arguments := [("query", .str "MATCH (n) DeTaCh DeLeTe n"), ("unsafe", .str "true")] } =
      { result := NewToolResultError
          "Potentially unsafe query detected. Set 'unsafe' to true to execute.",
        err := none, calls := [] } :=
  handleQuery_gate_rejects _ _ "MATCH (n) DeTaCh DeLeTe n" "delete " rfl
    (by simp [mapLookup]) (by decide) (by decide)

/-! ## After the gate -/

theorem gate_open (request : CallToolRequest) (q : String) (hg : passesGate request q) :
    (!(match mapLookup request.Arguments "unsafe" with
        | some (.bool val) => val
        | _ => false) && blockedWords.any (Contains (ToLower q))) = false := by
  rcases hg with hu | hn
  · simp [hu]
  · have : blockedWords.any (Contains (ToLower q)) = false := by
      rw [List.any_eq_false]
      intro kw hkw
      simp [hn kw hkw]
    simp [this]

/-- Past the gate the handler opens a session, runs the text it was given and
answers from what the driver returns. -/
theorem handleQuery_past_gate (Driver : DriverWithContext) (request : CallToolRequest)
    (q : String) (hq : mapLookup request.Arguments "query" = some (.str q))
    (hg : passesGate request q) :
    handleQuery Driver request =
      match Driver.Run q [] with
      | .error err =>
        { result := NewToolResultError ("Query execution failed: " ++ err),
          err := none, calls := runCalls q }
      | .ok result =>
        match result.err with
        | some err =>
          { result := NewToolResultError ("Error processing results: " ++ err),
            err := none, calls := runCalls q }
        | none =>
          if (collectRecords result.records [] []).2.length = 0 then
            { result := NewToolResultText (fmtValue (.map
                [("message", .str "Query executed successfully with no records returned"),
                  ("columns", .strs (collectRecords result.records [] []).1)])),
              err := none, calls := runCalls q }
          else
            { result := NewToolResultText (fmtValue (.map
                [("columns", .strs (collectRecords result.records [] []).1),
                  ("rows", .list ((collectRecords result.records [] []).2.map Value.map)),
                  ("count", .int (collectRecords result.records [] []).2.length)])),
              err := none, calls := runCalls q } := by
  unfold handleQuery
  simp only [hq, gate_eq_any, gate_open request q hg, runCalls]
  rfl

theorem handleQuery_calls_past_gate (Driver : DriverWithContext) (request : CallToolRequest)
    (q : String) (hq : mapLookup request.Arguments "query" = some (.str q))
    (hg : passesGate request q) :
    (handleQuery Driver request).calls = runCalls q := by
  rw [handleQuery_past_gate Driver request q hq hg]
  cases Driver.Run q [] with
  | error err => rfl
  | ok result =>
    cases hres : result.err with
    | some err => simp [hres]
    | none =>
      simp only [hres]
      split <;> rfl

theorem handleQuery_result_past_gate (Driver : DriverWithContext) (request : CallToolRequest)
    (q : String) (hq : mapLookup request.Arguments "query" = some (.str q))
    (hg : passesGate request q) :
    (handleQuery Driver request).result ≠ unsafeRejection := by
  have hexec : ∀ e : String, "Query execution failed: " ++ e ≠
      "Potentially unsafe query detected. Set 'unsafe' to true to execute." := by
    intro e h
    have h2 := congrArg (fun s => s.data.head?) h
    simp [String.data_append] at h2
  have hproc : ∀ e : String, "Error processing results: " ++ e ≠
      "Potentially unsafe query detected. Set 'unsafe' to true to execute." := by
    intro e h
    have h2 := congrArg (fun s => s.data.head?) h
    simp [String.data_append] at h2
  rw [handleQuery_past_gate Driver request q hq hg]
  cases Driver.Run q [] with
  | error err => simpa [unsafeRejection, NewToolResultError] using hexec err
  | ok result =>
    cases hres : result.err with
    | some err =>
      simp only [hres]
      simpa [unsafeRejection, NewToolResultError] using hproc err
    | none =>
      simp only [hres]
      split <;> simp [unsafeRejection, NewToolResultError, NewToolResultText]

/-- C2: when `unsafe` is the boolean true the gate is skipped for every query
text, blocked words or not: the driver calls are one session, one `Run` whose
text is the query character for character with an empty parameter map, and
the close of the session; the answer is not the rejection of the gate. -/
theorem handleQuery_unsafe_forwards (Driver : DriverWithContext) (request : CallToolRequest)
    (q : String)
    (hq : mapLookup request.Arguments "query" = some (.str q))
    (hu : mapLookup request.Arguments "unsafe" = some (.bool true)) :
    (handleQuery Driver request).calls = [.NewSession, .Run q [], .Close] ∧
      (handleQuery Driver request).result ≠ unsafeRejection :=
  ⟨handleQuery_calls_past_gate Driver request q hq (Or.inl hu),
    handleQuery_result_past_gate Driver request q hq (Or.inl hu)⟩

theorem handleQuery_unsafe_forwards_witness :
    (handleQuery (driverReturning { keys := [], records := [], err := none })
        { Arguments := [("query", .str "  MATCH (n) DETACH DELETE n "), ("unsafe", .bool true)] }).calls
      = [.NewSession, .Run "  MATCH (n) DETACH DELETE n " [], .Close] ∧
    (handleQuery (driverReturning { keys := [], records := [], err := none })
        { Arguments := [("query", .str "  MATCH (n) DETACH DELETE n "), ("unsafe", .bool true)] }).result
      ≠ unsafeRejection :=
  handleQuery_unsafe_forwards _ _ "  MATCH (n) DETACH DELETE n " rfl rfl

/-- C10: a query whose lowered text contains none of the six blocked
substrings is not rejected, whatever `unsafe` is: the handler opens a session
and calls `Run` with the text as given, not its lowered form. A blocked word
followed by a newline, a tab, a parenthesis or the end of the text is such a
query. -/
theorem handleQuery_gate_lexical (Driver : DriverWithContext) (request : CallToolRequest)
    (q : String)
    (hq : mapLookup request.Arguments "query" = some (.str q))
    (hn : ∀ kw ∈ blockedWords, Contains (ToLower q) kw = false) :
    (handleQuery Driver request).calls = [.NewSession, .Run q [], .Close] ∧
      (handleQuery Driver request).result ≠ unsafeRejection :=
  ⟨handleQuery_calls_past_gate Driver request q hq (Or.inr hn),
    handleQuery_result_past_gate Driver request q hq (Or.inr hn)⟩

theorem handleQuery_gate_lexical_witness :
    ((handleQuery (driverFailing "down")
        { Arguments := [("query", .str "MATCH (n) DETACH DELETE\nn")] }).calls
        = [.NewSession, .Run "MATCH (n) DETACH DELETE\nn" [], .Close] ∧
      (handleQuery (driverFailing "down")
        { Arguments := [("query", .str "MATCH (n) DETACH DELETE\nn")] }).result
        ≠ unsafeRejection) ∧
    ((handleQuery (driverFailing "down")
        { Arguments := [("query", .str "MATCH (n) SET\tn.x = 1"), ("unsafe", .bool false)] }).calls
        = [.NewSession, .Run "MATCH (n) SET\tn.x = 1" [], .Close] ∧
      (handleQuery (driverFailing "down")
        { Arguments := [("query", .str "MATCH (n) SET\tn.x = 1"), ("unsafe", .bool false)] }).result
        ≠ unsafeRejection) ∧
    ((handleQuery (driverFailing "down")
        { Arguments := [("query", .str "CREATE(n)")] }).calls
        = [.NewSession, .Run "CREATE(n)" [], .Close] ∧
      (handleQuery (driverFailing "down")
        { Arguments := [("query", .str "CREATE(n)")] }).result
        ≠ unsafeRejection) ∧
    ((handleQuery (driverFailing "down")
        { Arguments := [("query", .str "MATCH (n) DROP")] }).calls
        = [.NewSession, .Run "MATCH (n) DROP" [], .Close] ∧
      (handleQuery (driverFailing "down")
        { Arguments := [("query", .str "MATCH (n) DROP")] }).result
        ≠ unsafeRejection) :=
  ⟨handleQuery_gate_lexical _ _ "MATCH (n) DETACH DELETE\nn" rfl (by decide),
    handleQuery_gate_lexical _ _ "MATCH (n) SET\tn.x = 1" rfl (by decide),
    handleQuery_gate_lexical _ _ "CREATE(n)" rfl (by decide),
    handleQuery_gate_lexical _ _ "MATCH (n) DROP" rfl (by decide)⟩

/-- C9: when the query passes the gate and runs, and the error check after the
loop reports an error `e`, the answer is the tool-level error
"Error processing results: e" with a nil process-level error, whatever
records were collected before: no row, column list or count is in it. -/
theorem handleQuery_iteration_error (Driver : DriverWithContext) (request : CallToolRequest)
    (q e : String) (cols : List String) (records : List Record)
    (hq : mapLookup request.Arguments "query" = some (.str q))
    (hg : passesGate request q)
    (hrun : Driver.Run q [] = .ok { keys := cols, records := records, err := some e }) :
    handleQuery Driver request =
      { result := { Content := [{ Type_ := "text", Text := "Error processing results: " ++ e }],
                    IsError := true },
        err := none, calls := [.NewSession, .Run q [], .Close] } := by
  rw [handleQuery_past_gate Driver request q hq hg, hrun]
  rfl

theorem handleQuery_iteration_error_witness :
    handleQuery
        (driverReturning
          { keys := ["n"],
            records := [{ Keys := ["n"], Values := [("n", .int 1)] },
              { Keys := ["n"], Values := [("n", .int 2)] }],
            err := some "connection reset" })
        { Arguments := [("query", .str "MATCH (n) RETURN n")] } =
      { result := { Content := [{ Type_ := "text",
                                  Text := "Error processing results: " ++ "connection reset" }],
                    IsError := true },
        err := none, calls := [.NewSession, .Run "MATCH (n) RETURN n" [], .Close] } :=
  handleQuery_iteration_error _ _ "MATCH (n) RETURN n" "connection reset" ["n"] _ rfl
    (Or.inr (by decide)) rfl

/-- With no record and no error past the gate, the answer is the text of the
map with the "no records" message and an empty `columns` list, whatever the
column names `cols` of the result are: the column names are only ever taken
from a record. -/
theorem handleQuery_no_records (Driver : DriverWithContext)
    (request : CallToolRequest) (q : String) (cols : List String)
    (hq : mapLookup request.Arguments "query" = some (.str q))
    (hg : passesGate request q)
    (hrun : Driver.Run q [] = .ok { keys := cols, records := [], err := none }) :
    handleQuery Driver request =
      { result := NewToolResultText
          "map[columns:[] message:Query executed successfully with no records returned]",
        err := none, calls := [.NewSession, .Run q [], .Close] } := by
  have hfmt : fmtValue (.map
      [("message", .str "Query executed successfully with no records returned"),
        ("columns", .strs [])]) =
      "map[columns:[] message:Query executed successfully with no records returned]" := by
    decide
  rw [handleQuery_past_gate Driver request q hq hg, hrun]
  simp only [collectRecords, List.length_nil, if_true, hfmt, runCalls]

/-- C5: a query whose result has the column `name` and no record passes the
gate and runs without error, and the answer carries the "no records" message
with the column list `[]`, not the column list `[name]` of the result. -/
theorem handleQuery_zero_rows_columns_empty :
    (zeroRowResult.keys = ["name"] ∧ zeroRowResult.records = [] ∧ zeroRowResult.err = none) ∧
    handleQuery (driverReturning zeroRowResult)
        { Arguments := [("query", .str "MATCH (n:Missing) RETURN n.name AS name")] } =
      { result := NewToolResultText
          "map[columns:[] message:Query executed successfully with no records returned]",
        err := none,
        calls := [.NewSession, .Run "MATCH (n:Missing) RETURN n.name AS name" [], .Close] } :=
  ⟨⟨rfl, rfl, rfl⟩,
    handleQuery_no_records _ _ "MATCH (n:Missing) RETURN n.name AS name" ["name"] rfl
      (Or.inr (by decide)) rfl⟩

/-! ## Rows -/

theorem mapLookup_mapAssign (m : GoMap) (k key : String) (v : Value) :
    mapLookup (mapAssign m k v) key = if k = key then some v else mapLookup m key := by
  induction m with
  | nil => simp [mapAssign, mapLookup]
  | cons e m ih =>
    obtain ⟨k0, w⟩ := e
    by_cases h0 : k0 = k
    · subst h0
      by_cases h1 : k0 = key <;> simp [mapAssign, mapLookup, h1]
    · by_cases h1 : k0 = key
      · subst h1
        have h2 : ¬ k = k0 := fun h => h0 h.symm
        simp [mapAssign, mapLookup, h0, h2]
      · simp [mapAssign, mapLookup, h0, h1, ih]

theorem mapLookup_fill (f : String → Value) (keys : List String) (m : GoMap) (key : String) :
    mapLookup (keys.foldl (fun row k => mapAssign row k (f k)) m) key =
      if key ∈ keys then some (f key) else mapLookup m key := by
  induction keys generalizing m with
  | nil => simp
  | cons k ks ih =>
    rw [List.foldl_cons, ih, mapLookup_mapAssign]
    by_cases h1 : key ∈ ks
    · simp [h1]
    · by_cases h2 : k = key
      · subst h2
        simp
      · have h3 : ¬ key = k := fun h => h2 h.symm
        simp [h1, h2, h3]

theorem mapLookup_convertRecord (keys : List String) (record : Record) (key : String)
    (hkey : key ∈ keys) :
    mapLookup (convertRecord keys record) key =
      some (convertValue (mapIndex record.Values key)) := by
  unfold convertRecord
  rw [mapLookup_fill (fun k => convertValue (mapIndex record.Values k))]
  simp [hkey]

theorem collectRecords_uniform (K : List String) (records : List Record) :
    ∀ (keys : List String) (rows : List GoMap), (∀ r ∈ records, r.Keys = K) →
      (keys = K ∨ keys = []) →
      (collectRecords records keys rows).2 = rows ++ records.map (convertRecord K) ∧
        (records ≠ [] → (collectRecords records keys rows).1 = K) := by
  induction records with
  | nil => intro keys rows _ _; simp [collectRecords]
  | cons record rest ih =>
    intro keys rows hall hk
    have hrec : record.Keys = K := hall record (List.mem_cons_self _ _)
    have hnew : (if keys.length = 0 then record.Keys else keys) = K := by
      rcases hk with h | h
      · subst h
        by_cases hl : keys.length = 0
        · simp [hl, hrec]
        · simp [hl]
      · subst h
        simp [hrec]
    have hrest := ih K (rows ++ [convertRecord K record])
      (fun r hr => hall r (List.mem_cons_of_mem _ hr)) (Or.inl rfl)
    simp only [collectRecords, hnew]
    refine ⟨by simpa using hrest.1, fun _ => ?_⟩
    cases rest with
    | nil => simp [collectRecords]
    | cons r2 rest2 => exact hrest.2 (List.cons_ne_nil _ _)

/-- C6: for a query that passes the gate, runs without error and yields
records that all carry the column names `cols` of the result, the answer is
the text of the map with `columns`, `rows` and `count`, there is one row per
record, and under every column name the row holds: for a node the map of
`id`, `labels`, `properties`; for a relationship the map of `id`, `type`,
`start`, `end`, `properties`; for a path the map of the two counts `nodes`
and `relationships`; for every other value the value itself. -/
theorem handleQuery_reshapes (Driver : DriverWithContext) (request : CallToolRequest)
    (q : String) (cols : List String) (records : List Record)
    (hq : mapLookup request.Arguments "query" = some (.str q))
    (hg : passesGate request q)
    (hrun : Driver.Run q [] = .ok { keys := cols, records := records, err := none })
    (hne : records ≠ [])
    (hkeys : ∀ r ∈ records, r.Keys = cols) :
    ∃ rows : List GoMap,
      (handleQuery Driver request).result =
        NewToolResultText (fmtValue (.map
          [("columns", .strs cols), ("rows", .list (rows.map Value.map)),
            ("count", .int rows.length)])) ∧
      List.Forall₂ (fun record row => ∀ key ∈ cols,
        (∀ n, mapIndex record.Values key = .node n →
          mapLookup row key = some (.map
            [("id", .str n.ElementId), ("labels", .strs n.Labels),
              ("properties", .map n.Props)])) ∧
        (∀ r, mapIndex record.Values key = .relationship r →
          mapLookup row key = some (.map
            [("id", .str r.ElementId), ("type", .str r.Type_),
              ("start", .str r.StartElementId), ("end", .str r.EndElementId),
              ("properties", .map r.Props)])) ∧
        (∀ p, mapIndex record.Values key = .path p →
          mapLookup row key = some (.map
            [("nodes", .int p.Nodes.length), ("relationships", .int p.Relationships.length)])) ∧
        ((∀ n, mapIndex record.Values key ≠ .node n) →
          (∀ r, mapIndex record.Values key ≠ .relationship r) →
          (∀ p, mapIndex record.Values key ≠ .path p) →
          mapLookup row key = some (mapIndex record.Values key))) records rows := by
  obtain ⟨hrows, hcols⟩ := collectRecords_uniform cols records [] [] hkeys (Or.inr rfl)
  have hcols := hcols hne
  simp only [List.nil_append] at hrows
  have hlen : ¬ (List.map (convertRecord cols) records).length = 0 := by
    cases records with
    | nil => exact absurd rfl hne
    | cons r rest => simp
  refine ⟨records.map (convertRecord cols), ?_, ?_⟩
  · rw [handleQuery_past_gate Driver request q hq hg, hrun]
    simp only [hrows, hcols, hlen, if_false]
  · rw [List.forall₂_map_right_iff, List.forall₂_same]
    intro record _ key hkey
    have hrow := mapLookup_convertRecord cols record key hkey
    refine ⟨?_, ?_, ?_, ?_⟩
    · intro n hn
      rw [hrow, hn]
      rfl
    · intro r hr
      rw [hrow, hr]
      rfl
    · intro p hp
      rw [hrow, hp]
      rfl
    · intro hn hr hp
      rw [hrow]
      cases hv : mapIndex record.Values key with
      | node n => exact absurd hv (hn n)
      | relationship r => exact absurd hv (hr r)
      | path p => exact absurd hv (hp p)
      | _ => rfl

theorem handleQuery_reshapes_witness :
    ∃ rows : List GoMap,
      (handleQuery
          (driverReturning
            { keys := ["n", "r", "p", "x"], records := sampleRecords, err := none })
          { Arguments := [("query", .str "MATCH p = (n)-[r]->() RETURN n, r, p, 42 AS x")] }).result =
        NewToolResultText (fmtValue (.map
          [("columns", .strs ["n", "r", "p", "x"]), ("rows", .list (rows.map Value.map)),
            ("count", .int rows.length)])) ∧
      List.Forall₂ (fun record row => ∀ key ∈ ["n", "r", "p", "x"],
        (∀ n, mapIndex record.Values key = .node n →
          mapLookup row key = some (.map
            [("id", .str n.ElementId), ("labels", .strs n.Labels),
              ("properties", .map n.Props)])) ∧
        (∀ r, mapIndex record.Values key = .relationship r →
          mapLookup row key = some (.map
            [("id", .str r.ElementId), ("type", .str r.Type_),
              ("start", .str r.StartElementId), ("end", .str r.EndElementId),
              ("properties", .map r.Props)])) ∧
        (∀ p, mapIndex record.Values key = .path p →
          mapLookup row key = some (.map
            [("nodes", .int p.Nodes.length), ("relationships", .int p.Relationships.length)])) ∧
        ((∀ n, mapIndex record.Values key ≠ .node n) →
          (∀ r, mapIndex record.Values key ≠ .relationship r) →
          (∀ p, mapIndex record.Values key ≠ .path p) →
          mapLookup row key = some (mapIndex record.Values key))) sampleRecords rows :=
  handleQuery_reshapes _ _ "MATCH p = (n)-[r]->() RETURN n, r, p, 42 AS x" ["n", "r", "p", "x"]
    sampleRecords rfl (Or.inr (by decide)) rfl (by simp [sampleRecords])
    (by
      intro r hr
      simp only [sampleRecords, List.mem_cons, List.mem_singleton, List.not_mem_nil,
        or_false] at hr
      rcases hr with rfl | rfl <;> rfl)

/-! ## The schema handler -/

theorem collectSchema_length (records : List Record) :
    ∀ schema : List GoMap,
      (collectSchema records schema).length = schema.length + records.length := by
  induction records with
  | nil => intro schema; simp [collectSchema]
  | cons r rest ih =>
    intro schema
    simp only [collectSchema, ih, List.length_append, List.length_cons, List.length_nil]
    omega

theorem fmtValue_map_ne_no_schema (m : GoMap) :
    fmtValue (.map m) ≠ "No schema information available." := by
  intro h
  have h2 := congrArg (fun s => s.data.head?) h
  simp [fmtValue, fmtMap, String.data_append] at h2

/-- C8: when the query "SHOW SCHEMA INFO;" runs without error and the stream
ends without error, `handleSchemaInfo` answers with exactly the text
"No schema information available." if the stream had no record, and with the
text of a map holding one schema item per record, which is not that message,
if it had at least one. -/
theorem handleSchemaInfo_empty (Driver : DriverWithContext) (request : CallToolRequest)
    (cols : List String) (records : List Record)
    (hrun : Driver.Run "SHOW SCHEMA INFO;" [] =
      .ok { keys := cols, records := records, err := none }) :
    (records = [] →
      handleSchemaInfo Driver request =
        { result := { Content := [{ Type_ := "text", Text := "No schema information available." }],
                      IsError := false },
          err := none, calls := [.NewSession, .Run "SHOW SCHEMA INFO;" [], .Close] }) ∧
    (records ≠ [] →
      (handleSchemaInfo Driver request).result ≠
          NewToolResultText "No schema information available." ∧
        ∃ schema : List GoMap, schema.length = records.length ∧
          (handleSchemaInfo Driver request).result =
            NewToolResultText (fmtValue (.map [("schema", .list (schema.map Value.map))]))) := by
  constructor
  · intro hnil
    subst hnil
    unfold handleSchemaInfo
    rw [hrun]
    rfl
  · intro hne
    have hlen : ¬ (collectSchema records []).length = 0 := by
      rw [collectSchema_length]
      cases records with
      | nil => exact absurd rfl hne
      | cons r rest => simp
    have hres : (handleSchemaInfo Driver request).result =
        NewToolResultText (fmtValue (.map
          [("schema", .list ((collectSchema records []).map Value.map))])) := by
      unfold handleSchemaInfo
      rw [hrun]
      simp only [hlen, if_false]
    refine ⟨?_, collectSchema records [], by simp [collectSchema_length], hres⟩
    rw [hres]
    intro h
    simp only [NewToolResultText, CallToolResult.mk.injEq, List.cons.injEq, TextContent.mk.injEq,
      true_and, and_true] at h
    exact fmtValue_map_ne_no_schema _ h

theorem handleSchemaInfo_empty_witness :
    handleSchemaInfo (driverReturning { keys := ["schema"], records := [], err := none })
        { Arguments := [] } =
      { result := { Content := [{ Type_ := "text", Text := "No schema information available." }],
                    IsError := false },
        err := none, calls := [.NewSession, .Run "SHOW SCHEMA INFO;" [], .Close] } ∧
    (handleSchemaInfo
        (driverReturning
          { keys := ["schema"],
            records := [{ Keys := ["schema"], Values := [("schema", .str "none")] }],
            err := none })
        { Arguments := [] }).result ≠ NewToolResultText "No schema information available." :=
  ⟨(handleSchemaInfo_empty _ _ ["schema"] [] rfl).1 rfl,
    ((handleSchemaInfo_empty _ _ ["schema"]
      [{ Keys := ["schema"], Values := [("schema", .str "none")] }] rfl).2 (by simp)).1⟩

/-! ## Start-up -/

/-- C3: in server mode each connection parameter is the flag value when that
is not empty, else the value of its environment variable when that is not
empty, else the built-in default: "bolt://localhost:7687" for the URI, the
empty text for the user name and the password; `main` connects with these. -/
theorem connectionParams_precedence (quote : String → String) (u n p : String) (os : Os) :
    connectionParams
        { json := false, version := false, connectionUri := u, username := n, password := p } os =
      (resolved u (os.Getenv "MEMGRAPH_URI") "bolt://localhost:7687",
        resolved n (os.Getenv "MEMGRAPH_USER") "",
        resolved p (os.Getenv "MEMGRAPH_PASSWORD") "") ∧
    main quote
        { json := false, version := false, connectionUri := u, username := n, password := p } os =
      .connect (resolved u (os.Getenv "MEMGRAPH_URI") "bolt://localhost:7687")
        (if resolved n (os.Getenv "MEMGRAPH_USER") "" ≠ "" ∨
            resolved p (os.Getenv "MEMGRAPH_PASSWORD") "" ≠ "" then
          .BasicAuth (resolved n (os.Getenv "MEMGRAPH_USER") "")
            (resolved p (os.Getenv "MEMGRAPH_PASSWORD") "") ""
        else .NoAuth) := by
  have hparams : connectionParams
      { json := false, version := false, connectionUri := u, username := n, password := p } os =
      (resolved u (os.Getenv "MEMGRAPH_URI") "bolt://localhost:7687",
        resolved n (os.Getenv "MEMGRAPH_USER") "",
        resolved p (os.Getenv "MEMGRAPH_PASSWORD") "") := by
    simp only [connectionParams, resolved]
  refine ⟨hparams, ?_⟩
  simp only [main, hparams, Bool.false_eq_true, if_false]

/-- C7: in `--json` mode the configuration that is serialized has type
"stdio", an empty non-nil `env` and a non-nil `args` list made, in the order
connection-uri, username, password, of the flag and its value for each flag
whose value is not empty; the environment plays no part. Its text has `args`
as an array and `env` as the empty object, and with no flag set `args` is the
empty array, not null. -/
theorem main_json_config (quote : String → String) (u n p : String) (os : Os) :
    main quote
        { json := true, version := false, connectionUri := u, username := n, password := p } os =
      .printed (Marshal quote
        { Type_ := "stdio", Command := getExecutablePath os,
          Args := some (flagArgs "--connection-uri" u ++ flagArgs "--username" n ++
            flagArgs "--password" p),
          Env := some [] } ++ "\n") ∧
    Marshal quote
        { Type_ := "stdio", Command := getExecutablePath os,
          Args := some (flagArgs "--connection-uri" u ++ flagArgs "--username" n ++
            flagArgs "--password" p),
          Env := some [] } =
      "\x7b\"type\":" ++ quote "stdio" ++ ",\"command\":" ++ quote (getExecutablePath os) ++
        ",\"args\":[" ++ ",".intercalate ((flagArgs "--connection-uri" u ++
          flagArgs "--username" n ++ flagArgs "--password" p).map quote) ++ "],\"env\":\x7b\x7d\x7d" ∧
    main quote
        { json := true, version := false, connectionUri := "", username := "", password := "" } os =
      .printed ("\x7b\"type\":" ++ quote "stdio" ++ ",\"command\":" ++
        quote (getExecutablePath os) ++ ",\"args\":[],\"env\":\x7b\x7d\x7d\n") := by
  refine ⟨?_, ?_, ?_⟩
  · simp only [main, jsonConfig, append, flagArgs]
    by_cases hu : u = "" <;> by_cases hn : n = "" <;> by_cases hp : p = "" <;>
      simp [hu, hn, hp]
  · have hobj : "\x7b" ++ ",".intercalate ([] : List String) ++ "\x7d" = "\x7b\x7d" := by decide
    have htail : "]" ++ (",\"env\":" ++ ("\x7b\x7d" ++ "\x7d")) = "],\"env\":\x7b\x7d\x7d" := by decide
    have hhead : ",\"args\":" ++ "[" = ",\"args\":[" := by decide
    simp only [Marshal, marshalStrings, marshalStringMap, sortEntries, List.foldr_nil,
      List.map_nil, hobj]
    simp only [String.append_assoc, htail]
    rw [← String.append_assoc ",\"args\":" "[", hhead]
  · have hnil : ",".intercalate ([] : List String) = "" := rfl
    simp only [main, jsonConfig, Marshal, marshalStrings, marshalStringMap, sortEntries,
      List.foldr_nil, List.map_nil, hnil, Bool.false_eq_true, if_false, if_true, ne_eq,
      not_true_eq_false, MainAction.printed.injEq]
    apply String.ext
    simp [String.data_append]

end MemgraphMCP
